import Mathlib

/-
  Verification of `backend_service/app.py`, a single-route Flask relay that
  forwards a chat prompt to an upstream completion server.

  Modelling conventions:
  - Parsed JSON values are the inductive `Json`.  JSON numbers are modelled as
    exact rationals (every JSON numeric literal denotes `m / 10^k`); an
    integral rational models a Python `int`, a non-integral one a `float`.
  - Python dictionaries are association lists in insertion order; duplicate
    keys from a JSON parse keep the last binding (`json.loads` semantics),
    hence `lookupLast`.
  - Python dynamic-type errors (`AttributeError`, `TypeError`, `KeyError`,
    `IndexError`) surface as `Except.error`; the handler's blanket
    `except Exception` turns them into a 500 reply.
  - The single outbound `requests.post` is modelled by a `world` oracle from
    the outbound request to its outcome; the handler records the request it
    issued (if any) in its result, so "no outbound call" is `outbound = none`.
-/

set_option autoImplicit false

namespace Refact

/-- A parsed JSON value, as produced by Flask's `request.get_json()` or
`response.json()`. -/
inductive Json where
  | null
  | bool (b : Bool)
  | num (q : ℚ)
  | str (s : String)
  | arr (elems : List Json)
  | obj (fields : List (String × Json))

/-- Python truthiness (`bool(x)`) of a parsed JSON value: `None`, `False`,
zero, the empty string, the empty list and the empty dict are falsy. -/
def truthy : Json → Bool
  | Json.null => false
  | Json.bool b => b
  | Json.num q => q != 0
  | Json.str s => s != ""
  | Json.arr xs => !xs.isEmpty
  | Json.obj kvs => !kvs.isEmpty

/-- Dictionary lookup with `json.loads` duplicate-key semantics: the last
binding of a key wins. -/
def lookupLast : List (String × Json) → String → Option Json
  | [], _ => none
  | kv :: rest, k =>
    match lookupLast rest k with
    | some v => some v
    | none => if kv.1 == k then some kv.2 else none

/-- The single-quote character, used by Python `repr` of strings. -/
def squoteChar : Char := Char.ofNat 39

/-- The double-quote character. -/
def dquoteChar : Char := Char.ofNat 34

/-- Escape a string for Python `repr` output inside the given quote
character. -/
def pyEscape (quote : Char) (s : String) : String :=
  String.join (s.data.map (fun c =>
    if c == '\\' then "\\\\"
    else if c == quote then String.mk ['\\', quote]
    else if c == '\n' then "\\n"
    else if c == '\r' then "\\r"
    else if c == '\t' then "\\t"
    else String.mk [c]))

/-- Python `repr` of a string: single quotes by default, double quotes when
the string contains a single quote but no double quote. -/
def pyRepr (s : String) : String :=
  if s.contains squoteChar && !(s.contains dquoteChar) then
    String.mk [dquoteChar] ++ pyEscape dquoteChar s ++ String.mk [dquoteChar]
  else
    String.mk [squoteChar] ++ pyEscape squoteChar s ++ String.mk [squoteChar]

/-- Decimal rendering of a JSON number, as Python `str` prints it: integral
values print as integers, non-integral values as the (normalised) decimal
expansion when the denominator divides a power of ten. -/
def numRepr (q : ℚ) : String :=
  if q.den = 1 then toString q.num
  else
    match (List.range 40).find? (fun k => (q * (10 : ℚ) ^ k).den == 1) with
    | some k =>
      let m := (q * (10 : ℚ) ^ k).num
      let sign := if m < 0 then "-" else ""
      let digits := toString m.natAbs
      let padded := String.mk (List.replicate (k + 1 - digits.length) '0') ++ digits
      sign ++ padded.dropRight k ++ "." ++ padded.takeRight k
    | none => toString q.num ++ "/" ++ toString q.den

mutual

/-- Python `repr` of a parsed-JSON value: `None` / `True` / `False`, quoted
`repr` for strings, `[...]` for lists, `\x7b...\x7d` for dicts.  Containers
render their elements with `repr`, also inside `str(...)`. -/
def pyReprJson : Json → String
  | Json.null => "None"
  | Json.bool true => "True"
  | Json.bool false => "False"
  | Json.num q => numRepr q
  | Json.str s => pyRepr s
  | Json.arr xs => "[" ++ pyStrList xs ++ "]"
  | Json.obj kvs => "\x7b" ++ pyStrObj kvs ++ "\x7d"

/-- Comma-separated rendering of the elements of a Python list. -/
def pyStrList : List Json → String
  | [] => ""
  | [x] => pyReprJson x
  | x :: xs => pyReprJson x ++ ", " ++ pyStrList xs

/-- Comma-separated rendering of the entries of a Python dict. -/
def pyStrObj : List (String × Json) → String
  | [] => ""
  | [kv] => pyRepr kv.1 ++ ": " ++ pyReprJson kv.2
  | kv :: kvs => pyRepr kv.1 ++ ": " ++ pyReprJson kv.2 ++ ", " ++ pyStrObj kvs

end

/-- Python `str` of a parsed-JSON value (`str(refact_response_data)` in the
fallback branch of the handler): the bare string for a `str`, and `repr`
for every other type. -/
def pyStr (d : Json) : String :=
  match d with
  | Json.str s => s
  | _ => pyReprJson d

/-! ### Python operations used by the handler, with their failure modes -/

/-- Python membership test `k in d` for a string key `k`: key test on dicts,
element equality on lists (a string compares equal only to an equal string),
substring test on strings, `TypeError` otherwise. -/
def pyContains (d : Json) (k : String) : Except String Bool :=
  match d with
  | Json.obj kvs => Except.ok (kvs.any (fun kv => kv.1 == k))
  | Json.arr xs =>
    Except.ok (xs.any (fun x => match x with | Json.str s => s == k | _ => false))
  | Json.str s => Except.ok (decide (2 ≤ (s.splitOn k).length))
  | _ => Except.error "TypeError: argument is not iterable"

/-- Python `len(x)`: defined on lists, dicts and strings, `TypeError`
otherwise. -/
def pyLen (d : Json) : Except String Nat :=
  match d with
  | Json.arr xs => Except.ok xs.length
  | Json.obj kvs => Except.ok kvs.length
  | Json.str s => Except.ok s.length
  | _ => Except.error "TypeError: object has no len"

/-- Python subscript `d[k]` with a string key: dict lookup (`KeyError` when
missing), `TypeError` on every other type. -/
def pySubscriptStr (d : Json) (k : String) : Except String Json :=
  match d with
  | Json.obj kvs =>
    match lookupLast kvs k with
    | some v => Except.ok v
    | none => Except.error ("KeyError: " ++ k)
  | _ => Except.error "TypeError: indices must not be str"

/-- Python subscript `d[i]` with a nonnegative integer index: list indexing
(`IndexError` out of range), one-character string on strings, `KeyError` on
dicts (the handler only ever uses integer subscripts on the `choices` value),
`TypeError` otherwise. -/
def pySubscriptNat (d : Json) (i : Nat) : Except String Json :=
  match d with
  | Json.arr xs =>
    match xs.get? i with
    | some v => Except.ok v
    | none => Except.error "IndexError: list index out of range"
  | Json.str s =>
    match s.data.get? i with
    | some c => Except.ok (Json.str (String.mk [c]))
    | none => Except.error "IndexError: string index out of range"
  | Json.obj _ => Except.error "KeyError: int key"
  | _ => Except.error "TypeError: object is not subscriptable"

/-- Python `d.get(k)`: only dicts have a `.get` method (`AttributeError`
otherwise); returns `None` (here `Option.none`) when the key is missing. -/
def pyGet (d : Json) (k : String) : Except String (Option Json) :=
  match d with
  | Json.obj kvs => Except.ok (lookupLast kvs k)
  | _ => Except.error "AttributeError: object has no attribute get"

/-- A Python value that may be `None`: `None` maps to JSON `null` (Flask's
`jsonify` serialises both identically, and both are falsy). -/
def orNull (v : Option Json) : Json :=
  match v with
  | some x => x
  | none => Json.null

/-! ### The handler itself -/

/-- Completion-text extraction, app.py lines 77-83:
```
if "choices" in d and len(d["choices"]) > 0:
    completion_text = d["choices"][0].get("text")  # or message.content
    if not completion_text and "message" in d["choices"][0]:
        completion_text = d["choices"][0]["message"].get("content")
else:
    completion_text = str(d)
```
Any Python exception along the way is an `Except.error` (the enclosing
`except Exception` turns it into a 500). -/
def extractCompletion (d : Json) : Except String Json := do
  let hasChoices ← pyContains d "choices"
  let nonemptyChoices ←
    if hasChoices then do
      let choices ← pySubscriptStr d "choices"
      let n ← pyLen choices
      pure (decide (0 < n))
    else
      pure false
  if nonemptyChoices then do
    let choices ← pySubscriptStr d "choices"
    let choice0 ← pySubscriptNat choices 0
    let text ← pyGet choice0 "text"
    let completionText := orNull text
    if truthy completionText then
      pure completionText
    else do
      let hasMessage ← pyContains choice0 "message"
      if hasMessage then do
        let message ← pySubscriptStr choice0 "message"
        let content ← pyGet message "content"
        pure (orNull content)
      else
        pure completionText
  else
    pure (Json.str (pyStr d))

/-- Startup configuration read from the environment: `REFACT_SERVER_URL`
(defaulted to `http://localhost:8008`) and the optional `REFACT_API_KEY`. -/
structure Config where
  serverUrl : String
  apiKey : Option String

/-- The hardcoded upstream path, app.py line 14. -/
def REFACT_COMPLETION_ENDPOINT : String := "/v1/completions"

/-- Python `s.rstrip(c)` for a single character: remove every trailing
occurrence of `c`. -/
def rstripChar (s : String) (c : Char) : String :=
  String.mk ((s.data.reverse.dropWhile (fun x => x == c)).reverse)

/-- The outbound URL, app.py line 57:
`f"{REFACT_SERVER_URL.rstrip(chr(47))}{REFACT_COMPLETION_ENDPOINT}"`. -/
def full_refact_url (cfg : Config) : String :=
  rstripChar cfg.serverUrl '/' ++ REFACT_COMPLETION_ENDPOINT

/-- Outbound request headers, app.py lines 37-41: always `Content-Type`,
plus a bearer token when `REFACT_API_KEY` is truthy (set and non-empty). -/
def headersFor (cfg : Config) : List (String × String) :=
  [("Content-Type", "application/json")] ++
    match cfg.apiKey with
    | some key => if key == "" then [] else [("Authorization", "Bearer " ++ key)]
    | none => []

/-- Outbound upstream payload, app.py lines 46-54: caller fields merged with
hardcoded defaults (`data.get` with a default). -/
def refact_payload (data : List (String × Json)) (prompt : Json) :
    List (String × Json) :=
  [("model", (lookupLast data "model").getD (Json.str "smallcloud/Refact-1_6B-fim")),
   ("prompt", prompt),
   ("max_tokens", (lookupLast data "max_tokens").getD (Json.num 200)),
   ("temperature", (lookupLast data "temperature").getD (Json.num (7 / 10)))]

/-- The single outbound `requests.post` call: URL, JSON payload, headers and
the fixed timeout in seconds. -/
structure OutboundRequest where
  url : String
  payload : List (String × Json)
  headers : List (String × String)
  timeout : Nat

/-- The outbound request the handler builds for a valid dict body `kvs`. -/
def mkOutbound (cfg : Config) (kvs : List (String × Json)) : OutboundRequest :=
  ⟨full_refact_url cfg,
   refact_payload kvs (orNull (lookupLast kvs "prompt")),
   headersFor cfg, 60⟩

/-- Outcome of the outbound call: a `requests.exceptions.RequestException`
(connection error or timeout) carrying its message; an HTTP response whose
text parsed as JSON, with status code, reason phrase and parsed body; or an
HTTP response on which `response.json()` raises, carrying the decode-error
message.  A 1xx, 204 or 304 reply is delivered bodyless by `http.client`,
so its `json()` call always raises: such a reply is representable only as
`httpBadJson`.  `requests.exceptions.JSONDecodeError` subclasses
`RequestException` (requests ≥ 2.27), so the decode failure lands in the
handler's first `except` clause. -/
inductive UpstreamOutcome where
  | connError (msg : String)
  | httpResponse (status : Nat) (reason : String) (body : Json)
  | httpBadJson (status : Nat) (reason : String) (decodeMsg : String)

/-- `Response.raise_for_status()`: the message of the `HTTPError` it raises
for a 4xx or 5xx status, `none` for every other status. -/
def http_error_msg (status : Nat) (reason : String) (url : String) :
    Option String :=
  if 400 ≤ status ∧ status < 500 then
    some (toString status ++ " Client Error: " ++ reason ++ " for url: " ++ url)
  else if 500 ≤ status ∧ status < 600 then
    some (toString status ++ " Server Error: " ++ reason ++ " for url: " ++ url)
  else
    none

/-- What the handler sends back: HTTP status, JSON body, and the outbound
request it issued (`none` when no upstream call was made). -/
structure HandlerResult where
  status : Nat
  body : Json
  outbound : Option OutboundRequest

/-- The 503 body, app.py line 95. -/
def errorBody503 (msg : String) : Json :=
  Json.obj [("error", Json.str ("Could not connect to Refact server: " ++ msg))]

/-- The 500 body, app.py line 98. -/
def errorBody500 (msg : String) : Json :=
  Json.obj [("error", Json.str ("An unexpected error occurred: " ++ msg))]

/-- The handler `refact_chat`, app.py lines 21-98.  `data` is the result of
`request.get_json()` (`none` when no JSON body was provided); `world` gives
the outcome of the single outbound `requests.post`. -/
def refact_chat (cfg : Config) (data : Option Json)
    (world : OutboundRequest → UpstreamOutcome) : HandlerResult :=
  match data with
  | none => ⟨400, Json.obj [("error", Json.str "No input data provided")], none⟩
  | some d =>
    if truthy d then
      match d with
      | Json.obj kvs =>
        let prompt := orNull (lookupLast kvs "prompt")
        if truthy prompt then
          let req := mkOutbound cfg kvs
          match world req with
          | UpstreamOutcome.connError msg => ⟨503, errorBody503 msg, some req⟩
          | UpstreamOutcome.httpResponse st rs ubody =>
            match http_error_msg st rs (full_refact_url cfg) with
            | some msg => ⟨503, errorBody503 msg, some req⟩
            | none =>
              match extractCompletion ubody with
              | Except.error msg => ⟨500, errorBody500 msg, some req⟩
              | Except.ok completionText =>
                ⟨200,
                 Json.obj [("success", Json.bool true),
                           ("prompt", prompt),
                           ("response", completionText),
                           ("raw_refact_response", ubody)],
                 some req⟩
          | UpstreamOutcome.httpBadJson st rs dmsg =>
            match http_error_msg st rs (full_refact_url cfg) with
            | some msg => ⟨503, errorBody503 msg, some req⟩
            | none => ⟨503, errorBody503 dmsg, some req⟩
        else
          ⟨400, Json.obj [("error", Json.str "Prompt is required")], none⟩
      | _ =>
        ⟨500, errorBody500 "AttributeError: object has no attribute get", none⟩
    else
      ⟨400, Json.obj [("error", Json.str "No input data provided")], none⟩

/-! ### Accessors used in the claim statements -/

/-- The value of a field of the handler's JSON reply body. -/
def replyField (r : HandlerResult) (k : String) : Option Json :=
  match r.body with
  | Json.obj kvs => lookupLast kvs k
  | _ => none

/-- Whether the reply body carries an `error` field. -/
def hasErrorField (r : HandlerResult) : Bool :=
  (replyField r "error").isSome

/-- The JSON payload of the outbound request, when one was issued. -/
def outboundPayload (r : HandlerResult) : Option (List (String × Json)) :=
  r.outbound.map OutboundRequest.payload

/-! ### Shape predicates on upstream bodies -/

/-- Upstream bodies that take the `else` branch of the extraction (lines
81-83): a JSON object with no `choices` key, or whose `choices` is the empty
array. -/
def choicesElseShape : Json → Bool
  | Json.obj kvs =>
    match lookupLast kvs "choices" with
    | none => true
    | some (Json.arr []) => true
    | _ => false
  | _ => false

/-- Upstream bodies whose `choices[0]` is an object with neither a `text`
nor a `message` key. -/
def bareChoice0Shape : Json → Bool
  | Json.obj kvs =>
    match lookupLast kvs "choices" with
    | some (Json.arr (Json.obj c0 :: _)) =>
      (lookupLast c0 "text").isNone && (lookupLast c0 "message").isNone
    | _ => false
  | _ => false

/-- Whether a string ends in the URL path separator. -/
def endsInSlash (s : String) : Bool :=
  match s.data.getLast? with
  | some c => c == '/'
  | none => false

/-- Inbound bodies that the handler rejects with a 400: absent, falsy (for
example the empty object), or an object whose `prompt` is missing or falsy
(for example the empty string). -/
def badRequestInput (data : Option Json) : Prop :=
  data = none ∨
  (∃ d, data = some d ∧ truthy d = false) ∨
  (∃ kvs, data = some (Json.obj kvs) ∧
    truthy (orNull (lookupLast kvs "prompt")) = false)

/-! ### Concrete instances used by witnesses and counterexamples -/

/-- The configuration with the default server URL and no API key. -/
def defaultConfig : Config := ⟨"http://localhost:8008", none⟩

/-- A well-formed inbound body carrying only a prompt. -/
def goodData : Option Json := some (Json.obj [("prompt", Json.str "hello")])

/-- A world in which the upstream always answers with the given status,
reason and body. -/
def respWorld (st : Nat) (rs : String) (b : Json) :
    OutboundRequest → UpstreamOutcome :=
  fun _ => UpstreamOutcome.httpResponse st rs b

/-- A world in which the upstream connection always fails with the given
message. -/
def connWorld (msg : String) : OutboundRequest → UpstreamOutcome :=
  fun _ => UpstreamOutcome.connError msg

/-- A world in which the upstream always answers with the given status and
reason but a body on which `response.json()` raises with the given message
(for example the empty body that `http.client` forces on a 304). -/
def badJsonWorld (st : Nat) (rs : String) (dmsg : String) :
    OutboundRequest → UpstreamOutcome :=
  fun _ => UpstreamOutcome.httpBadJson st rs dmsg

/-! ### Basic lemmas about the handler -/

/-- A dict with a truthy `prompt` value is itself truthy (it is non-empty). -/
theorem truthy_obj_of_prompt {kvs : List (String × Json)}
    (hp : truthy (orNull (lookupLast kvs "prompt")) = true) :
    truthy (Json.obj kvs) = true := by
  cases kvs with
  | nil => simp [lookupLast, orNull, truthy] at hp
  | cons kv rest => simp [truthy]

/-- On a dict body with a truthy prompt, the handler reaches the outbound
call and its result is determined by the world's answer on `mkOutbound`. -/
theorem refact_chat_valid (cfg : Config) (kvs : List (String × Json))
    (world : OutboundRequest → UpstreamOutcome)
    (hp : truthy (orNull (lookupLast kvs "prompt")) = true) :
    refact_chat cfg (some (Json.obj kvs)) world =
      (match world (mkOutbound cfg kvs) with
       | UpstreamOutcome.connError msg =>
         ⟨503, errorBody503 msg, some (mkOutbound cfg kvs)⟩
       | UpstreamOutcome.httpResponse st rs ubody =>
         match http_error_msg st rs (full_refact_url cfg) with
         | some msg => ⟨503, errorBody503 msg, some (mkOutbound cfg kvs)⟩
         | none =>
           match extractCompletion ubody with
           | Except.error msg =>
             ⟨500, errorBody500 msg, some (mkOutbound cfg kvs)⟩
           | Except.ok completionText =>
             ⟨200,
              Json.obj [("success", Json.bool true),
                        ("prompt", orNull (lookupLast kvs "prompt")),
                        ("response", completionText),
                        ("raw_refact_response", ubody)],
              some (mkOutbound cfg kvs)⟩
       | UpstreamOutcome.httpBadJson st rs dmsg =>
         match http_error_msg st rs (full_refact_url cfg) with
         | some msg => ⟨503, errorBody503 msg, some (mkOutbound cfg kvs)⟩
         | none => ⟨503, errorBody503 dmsg, some (mkOutbound cfg kvs)⟩) := by
  have ht : truthy (Json.obj kvs) = true := truthy_obj_of_prompt hp
  simp [refact_chat, ht, hp]

/-- On a dict body with a truthy prompt, exactly the request `mkOutbound`
goes out, whatever the world answers. -/
theorem outbound_of_valid (cfg : Config) (kvs : List (String × Json))
    (world : OutboundRequest → UpstreamOutcome)
    (hp : truthy (orNull (lookupLast kvs "prompt")) = true) :
    (refact_chat cfg (some (Json.obj kvs)) world).outbound =
      some (mkOutbound cfg kvs) := by
  rw [refact_chat_valid cfg kvs world hp]
  split
  · rfl
  · split
    · rfl
    · split
      · rfl
      · rfl
  · split
    · rfl
    · rfl

/-- The key test on a dict agrees with `lookupLast`: some binding for `k`
exists iff the lookup succeeds. -/
theorem any_key_eq_isSome_lookupLast (kvs : List (String × Json)) (k : String) :
    kvs.any (fun kv => kv.1 == k) = (lookupLast kvs k).isSome := by
  induction kvs with
  | nil => rfl
  | cons kv rest ih =>
    simp only [List.any_cons, ih, lookupLast]
    cases lookupLast rest k with
    | some v => simp
    | none =>
      cases h : kv.1 == k with
      | true => simp [h]
      | false => simp [h]

/-- Membership test `"k" in d` on a dict, in terms of `lookupLast`. -/
theorem pyContains_obj (kvs : List (String × Json)) (k : String) :
    pyContains (Json.obj kvs) k = Except.ok (lookupLast kvs k).isSome := by
  simp [pyContains, any_key_eq_isSome_lookupLast]

/-- Extraction takes the `else` branch on a dict without usable `choices`
and stringifies the whole body. -/
theorem extractCompletion_else {d : Json} (h : choicesElseShape d = true) :
    extractCompletion d = Except.ok (Json.str (pyStr d)) := by
  cases d with
  | obj kvs =>
    simp only [choicesElseShape] at h
    cases hc : lookupLast kvs "choices" with
    | none =>
      simp [extractCompletion, pyContains_obj, hc, Bind.bind, Except.bind,
            Pure.pure, Except.pure]
    | some v =>
      rw [hc] at h
      cases v with
      | arr xs =>
        cases xs with
        | nil =>
          simp [extractCompletion, pyContains_obj, hc, pySubscriptStr, pyLen,
                Bind.bind, Except.bind, Pure.pure, Except.pure]
        | cons x rest => simp at h
      | null => simp at h
      | bool b => simp at h
      | num q => simp at h
      | str s => simp at h
      | obj m => simp at h
  | null => simp [choicesElseShape] at h
  | bool b => simp [choicesElseShape] at h
  | num q => simp [choicesElseShape] at h
  | str s => simp [choicesElseShape] at h
  | arr xs => simp [choicesElseShape] at h

/-- Extraction yields Python `None` when `choices[0]` is an object with
neither a `text` nor a `message` key. -/
theorem extractCompletion_bare {d : Json} (h : bareChoice0Shape d = true) :
    extractCompletion d = Except.ok Json.null := by
  cases d with
  | obj kvs =>
    simp only [bareChoice0Shape] at h
    cases hc : lookupLast kvs "choices" with
    | none => rw [hc] at h; simp at h
    | some v =>
      rw [hc] at h
      cases v with
      | arr xs =>
        cases xs with
        | nil => simp at h
        | cons x rest =>
          cases x with
          | obj c0 =>
            simp only [Bool.and_eq_true] at h
            obtain ⟨ht, hm⟩ := h
            rw [Option.isNone_iff_eq_none] at ht hm
            simp [extractCompletion, pyContains_obj, hc, pySubscriptStr,
                  pySubscriptNat, pyLen, pyGet, ht, hm, orNull, truthy,
                  Bind.bind, Except.bind, Pure.pure, Except.pure]
          | null => simp at h
          | bool b => simp at h
          | num q => simp at h
          | str s => simp at h
          | arr ys => simp at h
      | null => simp at h
      | bool b => simp at h
      | num q => simp at h
      | str s => simp at h
      | obj m => simp at h
  | null => simp [bareChoice0Shape] at h
  | bool b => simp [bareChoice0Shape] at h
  | num q => simp [bareChoice0Shape] at h
  | str s => simp [bareChoice0Shape] at h
  | arr xs => simp [bareChoice0Shape] at h

/-- Extraction returns the `text` value of the first choice when it is
present and truthy, whatever else the choice carries. -/
theorem extractCompletion_text {kvs c0 : List (String × Json)}
    {rest : List Json} {t : Json}
    (hc : lookupLast kvs "choices" = some (Json.arr (Json.obj c0 :: rest)))
    (htext : lookupLast c0 "text" = some t)
    (htr : truthy t = true) :
    extractCompletion (Json.obj kvs) = Except.ok t := by
  simp [extractCompletion, pyContains_obj, hc, pySubscriptStr, pySubscriptNat,
        pyLen, pyGet, htext, orNull, htr, Bind.bind, Except.bind, Pure.pure,
        Except.pure]

/-- A body whose `choices[0]` is a bare object does not take the `else`
branch of the extraction. -/
theorem choicesElse_of_bare {d : Json} (h : bareChoice0Shape d = true) :
    choicesElseShape d = false := by
  cases d with
  | obj kvs =>
    simp only [bareChoice0Shape, choicesElseShape] at h ⊢
    cases hc : lookupLast kvs "choices" with
    | none => rw [hc] at h; simp at h
    | some v =>
      rw [hc] at h
      cases v with
      | arr xs =>
        cases xs with
        | nil => simp at h
        | cons x rest => rfl
      | null => simp at h
      | bool b => simp at h
      | num q => simp at h
      | str s => simp at h
      | obj m => simp at h
  | null => rfl
  | bool b => rfl
  | num q => rfl
  | str s => rfl
  | arr xs => rfl

/-- When the upstream call succeeds with a 2xx status and the extraction
raises no error, the handler returns the full 200 reply. -/
theorem refact_chat_success (cfg : Config) (kvs : List (String × Json))
    (world : OutboundRequest → UpstreamOutcome) (st : Nat) (rs : String)
    (ubody ct : Json)
    (hp : truthy (orNull (lookupLast kvs "prompt")) = true)
    (hw : world (mkOutbound cfg kvs) = UpstreamOutcome.httpResponse st rs ubody)
    (h2 : 200 ≤ st) (h3 : st < 300)
    (hex : extractCompletion ubody = Except.ok ct) :
    refact_chat cfg (some (Json.obj kvs)) world =
      ⟨200,
       Json.obj [("success", Json.bool true),
                 ("prompt", orNull (lookupLast kvs "prompt")),
                 ("response", ct),
                 ("raw_refact_response", ubody)],
       some (mkOutbound cfg kvs)⟩ := by
  have herr : http_error_msg st rs (full_refact_url cfg) = none := by
    unfold http_error_msg
    rw [if_neg (by omega), if_neg (by omega)]
  rw [refact_chat_valid cfg kvs world hp, hw]
  simp [herr, hex]

/-- The `response` field of a successful reply is the extracted completion
text. -/
theorem replyField_response_of_ok (cfg : Config) (kvs : List (String × Json))
    (world : OutboundRequest → UpstreamOutcome) (st : Nat) (rs : String)
    (ubody ct : Json)
    (hp : truthy (orNull (lookupLast kvs "prompt")) = true)
    (hw : world (mkOutbound cfg kvs) = UpstreamOutcome.httpResponse st rs ubody)
    (h2 : 200 ≤ st) (h3 : st < 300)
    (hex : extractCompletion ubody = Except.ok ct) :
    replyField (refact_chat cfg (some (Json.obj kvs)) world) "response" =
      some ct := by
  rw [refact_chat_success cfg kvs world st rs ubody ct hp hw h2 h3 hex]
  rfl

/-! ### Claim C1 -/

/-- C1 counterexample: the truthy non-object body `[1]` has no `prompt`
field, yet the handler answers 500 (the `AttributeError` from `data.get`
lands in the blanket `except Exception`), not 400. -/
theorem C1_counterexample :
    (refact_chat defaultConfig (some (Json.arr [Json.num 1]))
        (connWorld "refused")).status = 500 ∧
    ¬ ((refact_chat defaultConfig (some (Json.arr [Json.num 1]))
        (connWorld "refused")).status = 400) :=
  ⟨rfl, by decide⟩

/-- C1 amended: for every POST whose JSON body is absent, falsy, or a JSON
object lacking a `prompt` field or carrying a falsy one (in particular the
empty string), the handler returns 400 with a JSON body containing an
`error` field and makes no outbound request; a truthy non-object body
instead yields a 500. -/
theorem C1_amended_thm (cfg : Config) (data : Option Json)
    (world : OutboundRequest → UpstreamOutcome) (h : badRequestInput data) :
    (refact_chat cfg data world).status = 400 ∧
    hasErrorField (refact_chat cfg data world) = true ∧
    (refact_chat cfg data world).outbound = none := by
  rcases h with h | ⟨d, hd, hf⟩ | ⟨kvs, hd, hf⟩
  · subst h
    exact ⟨rfl, rfl, rfl⟩
  · subst hd
    simp [refact_chat, hf, hasErrorField, replyField, lookupLast]
  · subst hd
    by_cases ht : truthy (Json.obj kvs) = true
    · simp [refact_chat, ht, hf, hasErrorField, replyField, lookupLast]
    · rw [Bool.not_eq_true] at ht
      simp [refact_chat, ht, hasErrorField, replyField, lookupLast]

/-- C1 witness: the empty-string prompt is rejected with a 400, an error
field, and no outbound call. -/
theorem C1_amended_witness :
    (refact_chat defaultConfig (some (Json.obj [("prompt", Json.str "")]))
        (connWorld "refused")).status = 400 ∧
    hasErrorField (refact_chat defaultConfig
        (some (Json.obj [("prompt", Json.str "")])) (connWorld "refused")) = true ∧
    (refact_chat defaultConfig (some (Json.obj [("prompt", Json.str "")]))
        (connWorld "refused")).outbound = none :=
  C1_amended_thm defaultConfig (some (Json.obj [("prompt", Json.str "")]))
    (connWorld "refused")
    (Or.inr (Or.inr ⟨[("prompt", Json.str "")], rfl, rfl⟩))

/-! ### Claim C2 -/

/-- C2 counterexample: with the successful upstream body `{"choices":[{}]}`
(whose `choices[0]` carries neither `text` nor `message.content`), the
`response` field of the 200 reply is null, not the stringification of the
upstream body as the claim states. -/
theorem C2_counterexample :
    replyField (refact_chat defaultConfig goodData
      (respWorld 200 "OK" (Json.obj [("choices", Json.arr [Json.obj []])])))
      "response" = some Json.null ∧
    ¬ (replyField (refact_chat defaultConfig goodData
        (respWorld 200 "OK" (Json.obj [("choices", Json.arr [Json.obj []])])))
        "response" =
      some (Json.str (pyStr (Json.obj [("choices", Json.arr [Json.obj []])])))) := by
  constructor
  · rfl
  · intro hcontra
    have hnull : Json.null =
        Json.str (pyStr (Json.obj [("choices", Json.arr [Json.obj []])])) :=
      Option.some.inj hcontra
    exact Json.noConfusion hnull

/-- C2 amended: for every 2xx upstream reply, the stringified-body fallback
applies exactly when the body is an object with no `choices` key or with an
empty `choices` array; when `choices[0]` exists as an object carrying
neither `text` nor `message`, the `response` field is null instead. -/
theorem C2_amended_thm (cfg : Config) (kvs : List (String × Json))
    (world : OutboundRequest → UpstreamOutcome) (st : Nat) (rs : String)
    (ubody : Json)
    (hp : truthy (orNull (lookupLast kvs "prompt")) = true)
    (hw : world (mkOutbound cfg kvs) = UpstreamOutcome.httpResponse st rs ubody)
    (h2 : 200 ≤ st) (h3 : st < 300)
    (hshape : choicesElseShape ubody = true ∨ bareChoice0Shape ubody = true) :
    replyField (refact_chat cfg (some (Json.obj kvs)) world) "response" =
      some (if choicesElseShape ubody = true
            then Json.str (pyStr ubody) else Json.null) := by
  rcases hshape with hs | hs
  · rw [replyField_response_of_ok cfg kvs world st rs ubody
        (Json.str (pyStr ubody)) hp hw h2 h3 (extractCompletion_else hs)]
    rw [if_pos hs]
  · rw [replyField_response_of_ok cfg kvs world st rs ubody
        Json.null hp hw h2 h3 (extractCompletion_bare hs)]
    rw [if_neg]
    rw [choicesElse_of_bare hs]
    exact Bool.false_ne_true

/-- C2 witness: a successful upstream body without a `choices` key comes
back stringified in the `response` field. -/
theorem C2_amended_witness :
    replyField (refact_chat defaultConfig goodData
      (respWorld 200 "OK" (Json.obj [("foo", Json.num 1)]))) "response" =
      some (if choicesElseShape (Json.obj [("foo", Json.num 1)]) = true
            then Json.str (pyStr (Json.obj [("foo", Json.num 1)]))
            else Json.null) :=
  C2_amended_thm defaultConfig [("prompt", Json.str "hello")]
    (respWorld 200 "OK" (Json.obj [("foo", Json.num 1)])) 200 "OK"
    (Json.obj [("foo", Json.num 1)]) rfl rfl (by decide) (by decide)
    (Or.inl rfl)

/-! ### Claim C3 -/

/-- C3: a successful upstream body `{"choices":[{"text":"hi"}]}` yields the
response `"hi"`, a body `{"choices":[{"message":{"content":"hi"}}]}` also
yields `"hi"`, and a truthy `choices[0].text` wins over any
`choices[0].message`. -/
theorem C3_thm :
    (∀ (cfg : Config) (kvs : List (String × Json))
       (world : OutboundRequest → UpstreamOutcome) (st : Nat) (rs : String),
      truthy (orNull (lookupLast kvs "prompt")) = true →
      world (mkOutbound cfg kvs) = UpstreamOutcome.httpResponse st rs
        (Json.obj [("choices", Json.arr [Json.obj [("text", Json.str "hi")]])]) →
      200 ≤ st → st < 300 →
      replyField (refact_chat cfg (some (Json.obj kvs)) world) "response" =
        some (Json.str "hi")) ∧
    (∀ (cfg : Config) (kvs : List (String × Json))
       (world : OutboundRequest → UpstreamOutcome) (st : Nat) (rs : String),
      truthy (orNull (lookupLast kvs "prompt")) = true →
      world (mkOutbound cfg kvs) = UpstreamOutcome.httpResponse st rs
        (Json.obj [("choices",
          Json.arr [Json.obj [("message", Json.obj [("content", Json.str "hi")])]])]) →
      200 ≤ st → st < 300 →
      replyField (refact_chat cfg (some (Json.obj kvs)) world) "response" =
        some (Json.str "hi")) ∧
    (∀ (cfg : Config) (kvs : List (String × Json))
       (world : OutboundRequest → UpstreamOutcome) (st : Nat) (rs : String)
       (t msgVal : Json),
      truthy (orNull (lookupLast kvs "prompt")) = true →
      truthy t = true →
      world (mkOutbound cfg kvs) = UpstreamOutcome.httpResponse st rs
        (Json.obj [("choices", Json.arr [Json.obj [("text", t), ("message", msgVal)]])]) →
      200 ≤ st → st < 300 →
      replyField (refact_chat cfg (some (Json.obj kvs)) world) "response" =
        some t) := by
  refine ⟨?_, ?_, ?_⟩
  · intro cfg kvs world st rs hp hw h2 h3
    exact replyField_response_of_ok cfg kvs world st rs _ _ hp hw h2 h3 rfl
  · intro cfg kvs world st rs hp hw h2 h3
    exact replyField_response_of_ok cfg kvs world st rs _ _ hp hw h2 h3 rfl
  · intro cfg kvs world st rs t msgVal hp htr hw h2 h3
    exact replyField_response_of_ok cfg kvs world st rs _ _ hp hw h2 h3
      (extractCompletion_text rfl rfl htr)

/-- C3 witness: the two concrete shapes yield `"hi"` and a truthy `text`
wins over a present `message.content`. -/
theorem C3_witness :
    replyField (refact_chat defaultConfig goodData
      (respWorld 200 "OK"
        (Json.obj [("choices", Json.arr [Json.obj [("text", Json.str "hi")]])])))
      "response" = some (Json.str "hi") ∧
    replyField (refact_chat defaultConfig goodData
      (respWorld 200 "OK"
        (Json.obj [("choices",
          Json.arr [Json.obj [("message", Json.obj [("content", Json.str "hi")])]])])))
      "response" = some (Json.str "hi") ∧
    replyField (refact_chat defaultConfig goodData
      (respWorld 200 "OK"
        (Json.obj [("choices",
          Json.arr [Json.obj [("text", Json.str "T"),
                              ("message", Json.obj [("content", Json.str "C")])]])])))
      "response" = some (Json.str "T") :=
  ⟨C3_thm.1 defaultConfig [("prompt", Json.str "hello")] _ 200 "OK"
     rfl rfl (by decide) (by decide),
   C3_thm.2.1 defaultConfig [("prompt", Json.str "hello")] _ 200 "OK"
     rfl rfl (by decide) (by decide),
   C3_thm.2.2 defaultConfig [("prompt", Json.str "hello")] _ 200 "OK"
     (Json.str "T") (Json.obj [("content", Json.str "C")])
     rfl rfl rfl (by decide) (by decide)⟩

/-! ### Claim C4 -/

/-- C4: a request supplying only `prompt` goes upstream with the hardcoded
defaults (`model = "smallcloud/Refact-1_6B-fim"`, `max_tokens = 200`,
`temperature = 0.7`), and caller-supplied values for these fields override
the defaults. -/
theorem C4_thm :
    (∀ (cfg : Config) (world : OutboundRequest → UpstreamOutcome) (p : Json),
      truthy p = true →
      outboundPayload (refact_chat cfg (some (Json.obj [("prompt", p)])) world) =
        some [("model", Json.str "smallcloud/Refact-1_6B-fim"),
              ("prompt", p),
              ("max_tokens", Json.num 200),
              ("temperature", Json.num (7 / 10))]) ∧
    (∀ (cfg : Config) (world : OutboundRequest → UpstreamOutcome)
       (p m mt t : Json),
      truthy p = true →
      outboundPayload (refact_chat cfg
        (some (Json.obj [("prompt", p), ("model", m),
                         ("max_tokens", mt), ("temperature", t)])) world) =
        some [("model", m), ("prompt", p),
              ("max_tokens", mt), ("temperature", t)]) := by
  constructor
  · intro cfg world p hpt
    have ho := outbound_of_valid cfg [("prompt", p)] world hpt
    unfold outboundPayload
    rw [ho]
    rfl
  · intro cfg world p m mt t hpt
    have ho := outbound_of_valid cfg
      [("prompt", p), ("model", m), ("max_tokens", mt), ("temperature", t)]
      world hpt
    unfold outboundPayload
    rw [ho]
    rfl

/-- C4 witness: the concrete prompt-only request gets exactly the default
payload, and an explicit caller payload overrides it. -/
theorem C4_witness :
    outboundPayload (refact_chat defaultConfig goodData (connWorld "refused")) =
      some [("model", Json.str "smallcloud/Refact-1_6B-fim"),
            ("prompt", Json.str "hello"),
            ("max_tokens", Json.num 200),
            ("temperature", Json.num (7 / 10))] ∧
    outboundPayload (refact_chat defaultConfig
      (some (Json.obj [("prompt", Json.str "hello"), ("model", Json.str "m"),
                       ("max_tokens", Json.num 5), ("temperature", Json.num 0)]))
      (connWorld "refused")) =
      some [("model", Json.str "m"), ("prompt", Json.str "hello"),
            ("max_tokens", Json.num 5), ("temperature", Json.num 0)] :=
  ⟨C4_thm.1 defaultConfig (connWorld "refused") (Json.str "hello") rfl,
   C4_thm.2 defaultConfig (connWorld "refused") (Json.str "hello")
     (Json.str "m") (Json.num 5) (Json.num 0) rfl⟩

/-! ### Claim C5 -/

/-- C5 counterexample: a final upstream status of 300 Multiple Choices is
not 2xx, is not a redirect requests follows (only 301/302/303/307/308 with a
`Location` header are), and, unlike a 304, delivers its JSON body; below 400
`raise_for_status` does not raise, so the handler answers 200, not 503 as
the claim states. -/
theorem C5_counterexample :
    (refact_chat defaultConfig goodData
        (respWorld 300 "Multiple Choices" (Json.obj []))).status = 200 ∧
    ¬ ((refact_chat defaultConfig goodData
        (respWorld 300 "Multiple Choices" (Json.obj []))).status = 503) :=
  ⟨rfl, by decide⟩

/-- C5 amended: when the upstream POST fails with a connection error or
timeout, returns a 4xx/5xx status, or returns a reply whose body
`response.json()` cannot parse (in particular the empty body `http.client`
forces on a 304), the handler answers 503 with an `error` field containing
the failure reason message. -/
theorem C5_amended_thm :
    (∀ (cfg : Config) (kvs : List (String × Json))
       (world : OutboundRequest → UpstreamOutcome) (msg : String),
      truthy (orNull (lookupLast kvs "prompt")) = true →
      world (mkOutbound cfg kvs) = UpstreamOutcome.connError msg →
      refact_chat cfg (some (Json.obj kvs)) world =
        ⟨503, errorBody503 msg, some (mkOutbound cfg kvs)⟩) ∧
    (∀ (cfg : Config) (kvs : List (String × Json))
       (world : OutboundRequest → UpstreamOutcome) (st : Nat) (rs : String)
       (ubody : Json),
      truthy (orNull (lookupLast kvs "prompt")) = true →
      world (mkOutbound cfg kvs) = UpstreamOutcome.httpResponse st rs ubody →
      400 ≤ st → st < 600 →
      ∃ m, http_error_msg st rs (full_refact_url cfg) = some m ∧
        refact_chat cfg (some (Json.obj kvs)) world =
          ⟨503, errorBody503 m, some (mkOutbound cfg kvs)⟩) ∧
    (∀ (cfg : Config) (kvs : List (String × Json))
       (world : OutboundRequest → UpstreamOutcome) (st : Nat) (rs dmsg : String),
      truthy (orNull (lookupLast kvs "prompt")) = true →
      world (mkOutbound cfg kvs) = UpstreamOutcome.httpBadJson st rs dmsg →
      ∃ m, refact_chat cfg (some (Json.obj kvs)) world =
        ⟨503, errorBody503 m, some (mkOutbound cfg kvs)⟩) := by
  refine ⟨?_, ?_, ?_⟩
  · intro cfg kvs world msg hp hw
    rw [refact_chat_valid cfg kvs world hp, hw]
  · intro cfg kvs world st rs ubody hp hw h4 h6
    obtain ⟨m, hm⟩ : ∃ m, http_error_msg st rs (full_refact_url cfg) = some m := by
      unfold http_error_msg
      by_cases h45 : 400 ≤ st ∧ st < 500
      · exact ⟨_, if_pos h45⟩
      · rw [if_neg h45, if_pos (by omega)]
        exact ⟨_, rfl⟩
    refine ⟨m, hm, ?_⟩
    rw [refact_chat_valid cfg kvs world hp, hw]
    simp [hm]
  · intro cfg kvs world st rs dmsg hp hw
    rw [refact_chat_valid cfg kvs world hp, hw]
    cases hm : http_error_msg st rs (full_refact_url cfg) with
    | some m => exact ⟨m, by simp [hm]⟩
    | none => exact ⟨dmsg, by simp [hm]⟩

/-- C5 witness: a concrete connection failure, a concrete 404, and a
concrete bodyless 304 all come back as 503 with the failure reason in the
error body. -/
theorem C5_witness :
    refact_chat defaultConfig goodData (connWorld "connection refused") =
      ⟨503, errorBody503 "connection refused",
       some (mkOutbound defaultConfig [("prompt", Json.str "hello")])⟩ ∧
    (∃ m, http_error_msg 404 "Not Found" (full_refact_url defaultConfig) = some m ∧
      refact_chat defaultConfig goodData (respWorld 404 "Not Found" Json.null) =
        ⟨503, errorBody503 m,
         some (mkOutbound defaultConfig [("prompt", Json.str "hello")])⟩) ∧
    (∃ m, refact_chat defaultConfig goodData
        (badJsonWorld 304 "Not Modified" "Expecting value: line 1 column 1 (char 0)") =
      ⟨503, errorBody503 m,
       some (mkOutbound defaultConfig [("prompt", Json.str "hello")])⟩) :=
  ⟨C5_amended_thm.1 defaultConfig [("prompt", Json.str "hello")]
     (connWorld "connection refused") "connection refused" rfl rfl,
   C5_amended_thm.2.1 defaultConfig [("prompt", Json.str "hello")]
     (respWorld 404 "Not Found" Json.null) 404 "Not Found" Json.null
     rfl rfl (by decide) (by decide),
   C5_amended_thm.2.2 defaultConfig [("prompt", Json.str "hello")]
     (badJsonWorld 304 "Not Modified" "Expecting value: line 1 column 1 (char 0)")
     304 "Not Modified" "Expecting value: line 1 column 1 (char 0)" rfl rfl⟩

/-! ### Claim C6 -/

/-- C6 counterexample: the successful upstream reply `5` (a JSON number)
makes `"choices" in refact_response_data` raise a `TypeError`, so the
handler answers 500, not 200 as the claim states. -/
theorem C6_counterexample :
    (refact_chat defaultConfig goodData
        (respWorld 200 "OK" (Json.num 5))).status = 500 ∧
    ¬ ((refact_chat defaultConfig goodData
        (respWorld 200 "OK" (Json.num 5))).status = 200) :=
  ⟨rfl, by decide⟩

/-- C6 amended: for every request reaching a 2xx upstream reply on which the
completion-text extraction raises no exception, the handler returns 200 with
`success = true`, the caller's prompt, the extracted text, and the raw
upstream body; when the extraction raises (for example on a bare numeric
body), the handler returns 500 instead. -/
theorem C6_amended_thm (cfg : Config) (kvs : List (String × Json))
    (world : OutboundRequest → UpstreamOutcome) (st : Nat) (rs : String)
    (ubody ct : Json)
    (hp : truthy (orNull (lookupLast kvs "prompt")) = true)
    (hw : world (mkOutbound cfg kvs) = UpstreamOutcome.httpResponse st rs ubody)
    (h2 : 200 ≤ st) (h3 : st < 300)
    (hex : extractCompletion ubody = Except.ok ct) :
    refact_chat cfg (some (Json.obj kvs)) world =
      ⟨200,
       Json.obj [("success", Json.bool true),
                 ("prompt", orNull (lookupLast kvs "prompt")),
                 ("response", ct),
                 ("raw_refact_response", ubody)],
       some (mkOutbound cfg kvs)⟩ :=
  refact_chat_success cfg kvs world st rs ubody ct hp hw h2 h3 hex

/-- C6 witness: the concrete success case returns the full 200 reply. -/
theorem C6_amended_witness :
    refact_chat defaultConfig goodData
      (respWorld 200 "OK"
        (Json.obj [("choices", Json.arr [Json.obj [("text", Json.str "ok")]])])) =
      ⟨200,
       Json.obj [("success", Json.bool true),
                 ("prompt", Json.str "hello"),
                 ("response", Json.str "ok"),
                 ("raw_refact_response",
                  Json.obj [("choices", Json.arr [Json.obj [("text", Json.str "ok")]])])],
       some (mkOutbound defaultConfig [("prompt", Json.str "hello")])⟩ :=
  C6_amended_thm defaultConfig [("prompt", Json.str "hello")]
    (respWorld 200 "OK"
      (Json.obj [("choices", Json.arr [Json.obj [("text", Json.str "ok")]])]))
    200 "OK"
    (Json.obj [("choices", Json.arr [Json.obj [("text", Json.str "ok")]])])
    (Json.str "ok") rfl rfl (by decide) (by decide) rfl

/-! ### Claim C7 -/

/-- C7: every valid request issues exactly the one outbound POST recorded in
the result; its URL is the configured base, right-stripped of slashes,
joined with the fixed path `/v1/completions`, and it carries the fixed
60-second timeout. -/
theorem C7_thm (cfg : Config) (kvs : List (String × Json))
    (world : OutboundRequest → UpstreamOutcome)
    (hp : truthy (orNull (lookupLast kvs "prompt")) = true) :
    ∃ r, (refact_chat cfg (some (Json.obj kvs)) world).outbound = some r ∧
      r.url = rstripChar cfg.serverUrl '/' ++ "/v1/completions" ∧
      r.timeout = 60 :=
  ⟨mkOutbound cfg kvs, outbound_of_valid cfg kvs world hp, rfl, rfl⟩

/-- C7 witness: the concrete valid request goes out to the default base URL
joined with `/v1/completions` with a 60-second timeout. -/
theorem C7_witness :
    ∃ r, (refact_chat defaultConfig goodData (connWorld "refused")).outbound =
        some r ∧
      r.url = rstripChar defaultConfig.serverUrl '/' ++ "/v1/completions" ∧
      r.timeout = 60 :=
  C7_thm defaultConfig [("prompt", Json.str "hello")] (connWorld "refused") rfl

/-! ### Claim C8 -/

/-- C8: the outbound request carries the handler's headers; these contain an
`Authorization: Bearer <key>` entry exactly when the API key is set and
non-empty, and only `Content-Type: application/json` otherwise. -/
theorem C8_thm (cfg : Config) (kvs : List (String × Json))
    (world : OutboundRequest → UpstreamOutcome)
    (hp : truthy (orNull (lookupLast kvs "prompt")) = true) :
    (∃ r, (refact_chat cfg (some (Json.obj kvs)) world).outbound = some r ∧
       r.headers = headersFor cfg) ∧
    (∀ key : String, cfg.apiKey = some key → ¬ key = "" →
       headersFor cfg = [("Content-Type", "application/json"),
                         ("Authorization", "Bearer " ++ key)]) ∧
    (cfg.apiKey = none ∨ cfg.apiKey = some "" →
       headersFor cfg = [("Content-Type", "application/json")]) := by
  refine ⟨⟨mkOutbound cfg kvs, outbound_of_valid cfg kvs world hp, rfl⟩, ?_, ?_⟩
  · intro key hk hne
    unfold headersFor
    rw [hk]
    simp [hne]
  · intro h
    rcases h with h | h
    · unfold headersFor; rw [h]; rfl
    · unfold headersFor; rw [h]; rfl

/-- C8 witness: a configured non-empty key yields exactly the bearer header
next to the content type; the default keyless configuration yields only the
content type. -/
theorem C8_witness :
    headersFor ⟨"http://localhost:8008", some "secret"⟩ =
      [("Content-Type", "application/json"),
       ("Authorization", "Bearer secret")] ∧
    headersFor defaultConfig = [("Content-Type", "application/json")] :=
  ⟨(C8_thm ⟨"http://localhost:8008", some "secret"⟩ [("prompt", Json.str "hello")]
      (connWorld "x") rfl).2.1 "secret" rfl (by decide),
   (C8_thm defaultConfig [("prompt", Json.str "hello")]
      (connWorld "x") rfl).2.2 (Or.inl rfl)⟩

/-! ### Claim C9 -/

/-- C9: the outbound payload has exactly the keys `model`, `prompt`,
`max_tokens` and `temperature`, and two inbound bodies that agree on those
four lookups produce identical outbound payloads, whatever other fields
they carry. -/
theorem C9_thm (cfg : Config) (world world2 : OutboundRequest → UpstreamOutcome)
    (kvs kvs2 : List (String × Json))
    (hp : truthy (orNull (lookupLast kvs "prompt")) = true)
    (hm : lookupLast kvs "model" = lookupLast kvs2 "model")
    (hpr : lookupLast kvs "prompt" = lookupLast kvs2 "prompt")
    (hmt : lookupLast kvs "max_tokens" = lookupLast kvs2 "max_tokens")
    (hte : lookupLast kvs "temperature" = lookupLast kvs2 "temperature") :
    outboundPayload (refact_chat cfg (some (Json.obj kvs)) world) =
      outboundPayload (refact_chat cfg (some (Json.obj kvs2)) world2) ∧
    ∀ pl, outboundPayload (refact_chat cfg (some (Json.obj kvs)) world) = some pl →
      pl.map Prod.fst = ["model", "prompt", "max_tokens", "temperature"] := by
  have hp2 : truthy (orNull (lookupLast kvs2 "prompt")) = true := by
    rw [← hpr]; exact hp
  have ho1 := outbound_of_valid cfg kvs world hp
  have ho2 := outbound_of_valid cfg kvs2 world2 hp2
  constructor
  · unfold outboundPayload
    rw [ho1, ho2]
    simp [mkOutbound, refact_payload, hm, hpr, hmt, hte]
  · intro pl hpl
    unfold outboundPayload at hpl
    rw [ho1] at hpl
    have hplv : pl = (mkOutbound cfg kvs).payload := by
      simpa using hpl.symm
    subst hplv
    rfl

/-- C9 witness: an extra caller field is invisible in the outbound payload,
whose keys are exactly the four forwarded ones. -/
theorem C9_witness :
    outboundPayload (refact_chat defaultConfig
      (some (Json.obj [("prompt", Json.str "p"), ("extra", Json.num 1)]))
      (connWorld "x")) =
      outboundPayload (refact_chat defaultConfig
        (some (Json.obj [("prompt", Json.str "p")])) (connWorld "y")) ∧
    ∀ pl, outboundPayload (refact_chat defaultConfig
      (some (Json.obj [("prompt", Json.str "p"), ("extra", Json.num 1)]))
      (connWorld "x")) = some pl →
      pl.map Prod.fst = ["model", "prompt", "max_tokens", "temperature"] :=
  C9_thm defaultConfig (connWorld "x") (connWorld "y")
    [("prompt", Json.str "p"), ("extra", Json.num 1)] [("prompt", Json.str "p")]
    rfl rfl rfl rfl rfl

/-! ### Claim C10 -/

/-- Characters `c` appended at the end are removed by a right-strip over
`c`, at the list level. -/
theorem dropWhile_reverse_append_replicate (l : List Char) (c : Char) (n : Nat) :
    (l ++ List.replicate n c).reverse.dropWhile (fun x => x == c) =
      l.reverse.dropWhile (fun x => x == c) := by
  rw [List.reverse_append, List.reverse_replicate]
  induction n with
  | zero => simp
  | succ k ih =>
    rw [List.replicate_succ, List.cons_append, List.dropWhile_cons]
    simp [ih]

/-- Python `rstrip` absorbs any number of trailing copies of the stripped
character. -/
theorem rstripChar_append_replicate (s : String) (c : Char) (n : Nat) :
    rstripChar (s ++ String.mk (List.replicate n c)) c = rstripChar s c := by
  unfold rstripChar
  rw [String.data_append,
      show (String.mk (List.replicate n c)).data = List.replicate n c from rfl,
      dropWhile_reverse_append_replicate]

/-- The result of right-stripping slashes never ends in a slash. -/
theorem endsInSlash_rstripChar (s : String) :
    endsInSlash (rstripChar s '/') = false := by
  unfold endsInSlash rstripChar
  rw [show (String.mk ((s.data.reverse.dropWhile (fun x => x == '/')).reverse)).data
      = (s.data.reverse.dropWhile (fun x => x == '/')).reverse from rfl,
      List.getLast?_reverse]
  generalize s.data.reverse = l
  induction l with
  | nil => rfl
  | cons x xs ih =>
    rw [List.dropWhile_cons]
    by_cases h : (x == '/') = true
    · rw [if_pos h]; exact ih
    · rw [if_neg h]
      simp only [List.head?_cons]
      rw [Bool.not_eq_true] at h
      exact h

/-- C10: the outbound URL is the configured base with every trailing slash
removed, concatenated with `/v1/completions`; any number of trailing slashes
on the base yields the same URL, and the stripped base never ends in a
slash, so the join point carries a single slash. -/
theorem C10_thm (cfg : Config) (n : Nat) :
    full_refact_url cfg = rstripChar cfg.serverUrl '/' ++ "/v1/completions" ∧
    full_refact_url ⟨cfg.serverUrl ++ String.mk (List.replicate n '/'), cfg.apiKey⟩ =
      full_refact_url cfg ∧
    endsInSlash (rstripChar cfg.serverUrl '/') = false :=
  ⟨rfl,
   by unfold full_refact_url; rw [rstripChar_append_replicate],
   endsInSlash_rstripChar cfg.serverUrl⟩

end Refact
